import Mathlib

/-!
Shallow embedding of the CuTest unit-testing framework
(src/CuTest.h, src/CuTest.c) and proofs about its test execution and
result-aggregation engine.

Modelling conventions:
* C structs become Lean structures; the struct and field names follow the
  source (`cutest_case_t`, `eResult`, `acMessage`, ...).
* The fixed-capacity pointer arrays `ppItems[CUTEST_MAX_NUM_CASES]` /
  `ppItems[CUTEST_MAX_NUM_GROUPS]` become `List (Option _)`: the list holds
  the array slots in order, `none` standing for a NULL pointer slot.
* The root item array `asItems` together with `ulCount` becomes a plain
  `List cutest_relem_t` holding the first `ulCount` (registered, non-null)
  elements; `CuTest_AppendRootItem` asserts `pItem != NULL`, so the tagged
  union always carries a valid payload and is modelled as a sum type.
* `setjmp`/`longjmp`: every `CuTest_EvalAssert*` function returns its updated
  case state together with a `Bool` that is `true` when the function returns
  normally and `false` when it leaves via `longjmp(psTc->sEnv, 0)`
  (`CuTestAssertFailed`).  A test function body is a `List cutest_stmt` of
  assertion invocations; `runTestFn` executes them in order and abandons the
  rest of the list on the first `longjmp`, exactly as the single
  `setjmp(psTc->sEnv)` return point in `CuTest_RunTestCase` does.
* `printf`/`fprintf` output is modelled as the list of emitted format-call
  strings (each `printf` call contributes one element, with its `\n`s
  included); the numeric `%ld` fields are rendered with `toString` on `Nat`.
* `snprintf(psTc->acMessage, sizeof(psTc->acMessage), ...)` truncates to
  `CUTEST_MAX_LEN_MESSAGE - 1` characters; `snprintfMessage` models this.
* `long double` values of `CuTest_EvalAssertFltEquals` are modelled as exact
  rationals `ℚ`: this captures the comparison logic `fabsl(a-e) > tol`
  (NaN does not exist in this model; the C code asserts `!isnan(tol)` as a
  precondition).  The `%Lf` decimal rendering inside the failure message is
  rendered via `toString` on `ℚ`.
* Byte buffers of `CuTest_EvalAssertMemEquals` are `List Nat` of the first
  `uSize` bytes read through `*(const uint8_t*)(p + i)` (each value < 256).
* The HTML report writes through a `FILE*` obtained from `fopen`;
  `CuTest_GenerateRunReport` takes a flag telling whether the open succeeded
  (`fopen` result non-NULL) and returns `none` (no file written at all) when
  it failed, mirroring the early `return`.  The function receives the run
  root by value (the C function takes it `const`) and the ISO8601 timestamp
  string as an opaque input (strftime/gmtime are external).
-/

/-- CUTEST_MAX_LEN_MESSAGE: size of the `acMessage` buffer. -/
def CUTEST_MAX_LEN_MESSAGE : Nat := 256

/-- CUTEST_MAX_NUM_CASES: capacity of a group's `ppItems` array. -/
def CUTEST_MAX_NUM_CASES : Nat := 256

/-- CUTEST_MAX_NUM_GROUPS: capacity of a module's `ppItems` array. -/
def CUTEST_MAX_NUM_GROUPS : Nat := 128

/-- CUTEST_MAX_NUM_ROOT_ITEM: capacity of the run root's `asItems` array. -/
def CUTEST_MAX_NUM_ROOT_ITEM : Nat := 32

/-- CUTEST_VERSION default value (`"unknown"`). -/
def CUTEST_VERSION : String := "unknown"

/-- EXIT_SUCCESS of `<stdlib.h>`. -/
def EXIT_SUCCESS : Nat := 0

/-- EXIT_FAILURE of `<stdlib.h>`. -/
def EXIT_FAILURE : Nat := 1

/-- Source `cutest_result_t`: three-valued test result. -/
inductive cutest_result_t
  | EN_CUTEST_RESULT_UNDEF
  | EN_CUTEST_RESULT_PASS
  | EN_CUTEST_RESULT_FAIL
deriving DecidableEq

/-- Source `cutest_case_t`: test case data container.  The C struct additionally
holds the test function pointer `pfvTestFn` (passed separately to the runner
in this model, see `CuTest_RunTestCase`) and the `jmp_buf sEnv` (modelled by
the Bool component of the assertion functions). -/
structure cutest_case_t where
  pszName : String
  pszFile : String
  ulLine : Nat
  eResult : cutest_result_t
  acMessage : String
  pszMsgFile : String
  ulMsgLine : Nat
  bPrintResult : Bool
deriving DecidableEq

/-- Source `cutest_group_t`: group description plus the `ppItems` slot array
(capacity `CUTEST_MAX_NUM_CASES`; `none` = NULL slot). -/
structure cutest_group_t where
  pszName : String
  pszFile : String
  ulLine : Nat
  ppItems : List (Option cutest_case_t)
deriving DecidableEq

/-- Source `cutest_module_t`: module description plus the `ppItems` slot array
(capacity `CUTEST_MAX_NUM_GROUPS`; `none` = NULL slot). -/
structure cutest_module_t where
  pszName : String
  pszFile : String
  ulLine : Nat
  ppItems : List (Option cutest_group_t)
deriving DecidableEq

/-- Source `cutest_relem_t`: tagged union of a root item (the `eType` tag plus the
pointer union; `CuTest_AppendRootItem` asserts the payload is non-NULL). -/
inductive cutest_relem_t
  | EN_CUTEST_TYPE_CASE (psCase : cutest_case_t)
  | EN_CUTEST_TYPE_GROUP (psGroup : cutest_group_t)
  | EN_CUTEST_TYPE_MODULE (psModule : cutest_module_t)
deriving DecidableEq

/-- Source `cutest_root_t`: project name plus the first `ulCount` registered
elements of `asItems`. -/
structure cutest_root_t where
  pszName : String
  asItems : List cutest_relem_t
deriving DecidableEq

/-- Source `cutest_stats_t`: statistics counters. -/
structure cutest_stats_t where
  ulTotal : Nat
  ulPassed : Nat
  ulFailed : Nat
deriving DecidableEq

/-- Source `snprintf` into the `acMessage[CUTEST_MAX_LEN_MESSAGE]` buffer: at most
`CUTEST_MAX_LEN_MESSAGE - 1` characters are stored (then NUL-terminated). -/
def snprintfMessage (s : String) : String :=
  String.mk (s.toList.take (CUTEST_MAX_LEN_MESSAGE - 1))

/-- Source `CuTestAssertPassed`: assign 'passed' state and continue. -/
def CuTestAssertPassed (psTc : cutest_case_t) : cutest_case_t :=
  { psTc with eResult := .EN_CUTEST_RESULT_PASS }

/-- Source `CuTestAssertFailed`: assign 'failed' state; the C function then leaves
via `longjmp(psTc->sEnv, 0)` (the callers return `false` for this). -/
def CuTestAssertFailed (psTc : cutest_case_t) : cutest_case_t :=
  { psTc with eResult := .EN_CUTEST_RESULT_FAIL }

/-- Source `CuTest_EvalAssert`: evaluate a generic boolean condition.  Returns the
updated case and `true` on normal return, `false` on `longjmp`. -/
def CuTest_EvalAssert (psTc : cutest_case_t) (pszFile : String) (ulLine : Nat)
    (bCondition : Bool) (pszMessage : Option String) : cutest_case_t × Bool :=
  if bCondition then
    (CuTestAssertPassed psTc, true)
  else
    let formatted : String :=
      match pszMessage with
      | some m => if m = "" then "assert failed." else m
      | none => "assert failed."
    (CuTestAssertFailed
      { psTc with
        acMessage := snprintfMessage formatted
        pszMsgFile := pszFile
        ulMsgLine := ulLine }, false)

/-- Source `CuTest_EvalAssertIntEquals`: evaluate two `intmax_t` values to be
equal. -/
def CuTest_EvalAssertIntEquals (psTc : cutest_case_t) (pszFile : String)
    (ulLine : Nat) (llExpected llActual : Int) : cutest_case_t × Bool :=
  if llActual = llExpected then
    (CuTestAssertPassed psTc, true)
  else
    (CuTestAssertFailed
      { psTc with
        acMessage := snprintfMessage
          ("expected <" ++ toString llExpected ++ ">, but was <" ++
            toString llActual ++ ">")
        pszMsgFile := pszFile
        ulMsgLine := ulLine }, false)

/-- Source `CuTest_EvalAssertFltEquals`: evaluate floating-point values to be equal
within the tolerance band (`long double` modelled as exact `ℚ`; the C code
asserts `!isnan(llfTolerance)` as a precondition). -/
def CuTest_EvalAssertFltEquals (psTc : cutest_case_t) (pszFile : String)
    (ulLine : Nat) (llfExpected llfActual llfTolerance : ℚ) :
    cutest_case_t × Bool :=
  let llfDeviation : ℚ := |llfActual - llfExpected|
  if llfDeviation > llfTolerance then
    (CuTestAssertFailed
      { psTc with
        acMessage := snprintfMessage
          ("expected <" ++ toString llfExpected ++ ">, but was <" ++
            toString llfActual ++ "> (Deviation <" ++ toString llfDeviation ++
            "> exceeds <" ++ toString llfTolerance ++ ">)")
        pszMsgFile := pszFile
        ulMsgLine := ulLine }, false)
  else
    (CuTestAssertPassed psTc, true)

/-- Source `%02X` rendering of one byte value (< 256). -/
def hexByte (b : Nat) : String :=
  let hexDigit : Nat → Char := fun n =>
    if n < 10 then Char.ofNat (48 + n) else Char.ofNat (55 + n)
  String.mk [hexDigit (b / 16 % 16), hexDigit (b % 16)]

/-- Failure message of `CuTest_EvalAssertMemEquals` for a mismatch at offset
`i` with the given expected/actual byte values. -/
def memMismatchMsg (i : Nat) (ucExpected ucActual : Nat) : String :=
  "mismatch at offset <" ++ toString i ++ ">: expected <0x" ++
    hexByte ucExpected ++ ">, but was <0x" ++ hexByte ucActual ++ ">"

/-- The byte-comparison loop of `CuTest_EvalAssertMemEquals`, carrying the
current offset `i`; on the first mismatch it stores the message and leaves
via `longjmp` (second component `false`). -/
def memEqualsLoop (psTc : cutest_case_t) (pszFile : String) (ulLine : Nat) :
    List Nat → List Nat → Nat → cutest_case_t × Bool
  | ucExpected :: es, ucActual :: as, i =>
    if ucExpected ≠ ucActual then
      (CuTestAssertFailed
        { psTc with
          acMessage := snprintfMessage (memMismatchMsg i ucExpected ucActual)
          pszMsgFile := pszFile
          ulMsgLine := ulLine }, false)
    else
      memEqualsLoop psTc pszFile ulLine es as (i + 1)
  | _, _, _ => (CuTestAssertPassed psTc, true)

/-- Source `CuTest_EvalAssertMemEquals`: evaluate memory contents to be equal.  The
lists hold the first `uSize` bytes of the expected and actual buffers. -/
def CuTest_EvalAssertMemEquals (psTc : cutest_case_t) (pszFile : String)
    (ulLine : Nat) (pExpected pActual : List Nat) : cutest_case_t × Bool :=
  memEqualsLoop psTc pszFile ulLine pExpected pActual 0

/-- One assertion invocation inside a test function body (the assert kinds
the verified claims exercise). -/
inductive cutest_stmt
  | evalAssert (pszFile : String) (ulLine : Nat) (bCondition : Bool)
      (pszMessage : Option String)
  | evalAssertIntEquals (pszFile : String) (ulLine : Nat)
      (llExpected llActual : Int)
  | evalAssertFltEquals (pszFile : String) (ulLine : Nat)
      (llfExpected llfActual llfTolerance : ℚ)
  | evalAssertMemEquals (pszFile : String) (ulLine : Nat)
      (pExpected pActual : List Nat)
deriving DecidableEq

/-- Dispatch one assertion invocation to its evaluation function. -/
def execStmt (psTc : cutest_case_t) : cutest_stmt → cutest_case_t × Bool
  | .evalAssert f l c m => CuTest_EvalAssert psTc f l c m
  | .evalAssertIntEquals f l e a => CuTest_EvalAssertIntEquals psTc f l e a
  | .evalAssertFltEquals f l e a t => CuTest_EvalAssertFltEquals psTc f l e a t
  | .evalAssertMemEquals f l e a => CuTest_EvalAssertMemEquals psTc f l e a

/-- Execute a test function body: run its assertion invocations in order;
the first one that leaves via `longjmp` transfers control back to the
`setjmp(psTc->sEnv)` point in `CuTest_RunTestCase`, abandoning the rest of
the body. -/
def runTestFn : List cutest_stmt → cutest_case_t → cutest_case_t
  | [], psTc => psTc
  | s :: rest, psTc =>
    match execStmt psTc s with
    | (psTc2, true) => runTestFn rest psTc2
    | (psTc2, false) => psTc2

/-- The per-case result lines of `CuTest_RunTestCase` ("results for Eclipse
error parser"): the `printf` calls made after the test function returned,
one string per call (note the two failure lines each end in `"\n "`, newline
followed by a space, exactly as in the source format strings). -/
def printCaseResult (psTc : cutest_case_t) : List String :=
  if psTc.bPrintResult then
    match psTc.eResult with
    | .EN_CUTEST_RESULT_PASS =>
      [psTc.pszFile ++ ":" ++ toString psTc.ulLine ++ ":0: info: " ++
        psTc.pszName ++ " passed.\n"]
    | .EN_CUTEST_RESULT_FAIL =>
      [psTc.pszFile ++ ":" ++ toString psTc.ulLine ++ ":0: error: " ++
        psTc.pszName ++ " failed.\n ",
       psTc.pszMsgFile ++ ":" ++ toString psTc.ulMsgLine ++ ":0: error: " ++
        psTc.acMessage ++ "\n "]
    | .EN_CUTEST_RESULT_UNDEF =>
      [psTc.pszFile ++ ":" ++ toString psTc.ulLine ++ ":0: warning: " ++
        psTc.pszName ++ " not evaluated.\n"]
  else []

/-- Source `CuTest_RunTestCase`: reset the result buffers, set the `setjmp` return
point, execute the test function `pfvTestFn`, and print the per-case result
lines.  Returns the final case state and the emitted output. -/
def CuTest_RunTestCase (pfvTestFn : List cutest_stmt)
    (psTc : cutest_case_t) : cutest_case_t × List String :=
  let psTc1 :=
    { psTc with eResult := .EN_CUTEST_RESULT_UNDEF, acMessage := "" }
  let psTc2 := runTestFn pfvTestFn psTc1
  (psTc2, printCaseResult psTc2)

/-- Source `CuTest_RunTestGroup`: iterate all `CUTEST_MAX_NUM_CASES` slots; run the
case in every occupied slot (a NULL slot is skipped, the loop continues).
Each occupied slot carries the case's test function.  Returns the slot array
of final case states and the concatenated output. -/
def CuTest_RunTestGroup :
    List (Option (List cutest_stmt × cutest_case_t)) →
    List (Option cutest_case_t) × List String
  | [] => ([], [])
  | none :: rest =>
    let (tcs, out) := CuTest_RunTestGroup rest
    (none :: tcs, out)
  | some (pfvTestFn, psCase) :: rest =>
    let (psCase2, o) := CuTest_RunTestCase pfvTestFn psCase
    let (tcs, out) := CuTest_RunTestGroup rest
    (some psCase2 :: tcs, o ++ out)

/-- Source `CuTestPrintSummaryTape_Case`: the one summary character of a case. -/
def CuTestPrintSummaryTape_Case (psCase : cutest_case_t) : Char :=
  match psCase.eResult with
  | .EN_CUTEST_RESULT_PASS => '.'
  | .EN_CUTEST_RESULT_FAIL => 'F'
  | .EN_CUTEST_RESULT_UNDEF => '?'

/-- The slot loop of `CuTestPrintSummaryTape_Group`: emit one character per
case but `break` at the first NULL slot. -/
def summaryTapeCases : List (Option cutest_case_t) → List Char
  | some psCase :: rest => CuTestPrintSummaryTape_Case psCase :: summaryTapeCases rest
  | _ => []

/-- Source `CuTestPrintSummaryTape_Group`: tape characters of a group (stops at the
first empty slot). -/
def CuTestPrintSummaryTape_Group (psGroup : cutest_group_t) : List Char :=
  summaryTapeCases psGroup.ppItems

/-- The slot loop of `CuTestPrintSummaryTape_Module` (`break` at the first
NULL slot). -/
def summaryTapeGroups : List (Option cutest_group_t) → List Char
  | some psGroup :: rest =>
    CuTestPrintSummaryTape_Group psGroup ++ summaryTapeGroups rest
  | _ => []

/-- Source `CuTestPrintSummaryTape_Module`: tape characters of a module (stops at
the first empty slot). -/
def CuTestPrintSummaryTape_Module (psModule : cutest_module_t) : List Char :=
  summaryTapeGroups psModule.ppItems

/-- Source `CuTestGetStats_Case`: statistics of a single case. -/
def CuTestGetStats_Case (psCase : cutest_case_t) : cutest_stats_t :=
  { ulTotal := 1
    ulFailed := if psCase.eResult = .EN_CUTEST_RESULT_FAIL then 1 else 0
    ulPassed := if psCase.eResult = .EN_CUTEST_RESULT_PASS then 1 else 0 }

/-- Element-wise sum of statistics counters (the `+=` accumulation). -/
def statsAdd (s t : cutest_stats_t) : cutest_stats_t :=
  { ulTotal := s.ulTotal + t.ulTotal
    ulPassed := s.ulPassed + t.ulPassed
    ulFailed := s.ulFailed + t.ulFailed }

/-- Source `CuTestGetStats_Group`: accumulate over all `CUTEST_MAX_NUM_CASES`
slots; a NULL slot contributes nothing and the loop continues (no break). -/
def CuTestGetStats_Group (psGroup : cutest_group_t) : cutest_stats_t :=
  psGroup.ppItems.foldl
    (fun sGroup item =>
      match item with
      | some psCase => statsAdd sGroup (CuTestGetStats_Case psCase)
      | none => sGroup)
    ⟨0, 0, 0⟩

/-- Source `CuTestGetStats_Module`: accumulate over all `CUTEST_MAX_NUM_GROUPS`
slots; a NULL slot contributes nothing and the loop continues (no break). -/
def CuTestGetStats_Module (psModule : cutest_module_t) : cutest_stats_t :=
  psModule.ppItems.foldl
    (fun sModule item =>
      match item with
      | some psGroup => statsAdd sModule (CuTestGetStats_Group psGroup)
      | none => sModule)
    ⟨0, 0, 0⟩

/-- Source `CuTestGetStats`: accumulate over the run's registered root items,
dispatching on the item tag. -/
def CuTestGetStats (psRoot : cutest_root_t) : cutest_stats_t :=
  psRoot.asItems.foldl
    (fun sRun psItem =>
      let sItem :=
        match psItem with
        | .EN_CUTEST_TYPE_CASE psCase => CuTestGetStats_Case psCase
        | .EN_CUTEST_TYPE_GROUP psGroup => CuTestGetStats_Group psGroup
        | .EN_CUTEST_TYPE_MODULE psModule => CuTestGetStats_Module psModule
      statsAdd sRun sItem)
    ⟨0, 0, 0⟩

/-- Source `CuTest_GetRunResult`: PASS iff every counted case is marked passed
(`ulPassed == ulTotal`). -/
def CuTest_GetRunResult (psRoot : cutest_root_t) : cutest_result_t :=
  let sRun := CuTestGetStats psRoot
  if sRun.ulPassed = sRun.ulTotal then .EN_CUTEST_RESULT_PASS
  else .EN_CUTEST_RESULT_FAIL

/-- Source `GET_RUN_RESULT()` macro: the process exit code derived from the overall
run result. -/
def GET_RUN_RESULT (psRoot : cutest_root_t) : Nat :=
  if CuTest_GetRunResult psRoot = .EN_CUTEST_RESULT_PASS then EXIT_SUCCESS
  else EXIT_FAILURE

/-- Source `CuTestGenerateReport_CaseHeader`: the HTML table header string. -/
def CuTestGenerateReport_CaseHeader : String :=
  "<table border=\"1\"><tr><th>Nr.</th><th>Name</th><th>File</th><th>Result</th><th>Message</th></tr>"

/-- Source `CuTestGenerateReport_CaseFooter`: the HTML table footer string. -/
def CuTestGenerateReport_CaseFooter : String :=
  "</table>"

/-- Source `CuTestGenerateReport_CaseLine`: one HTML table row for a case; bumps
the sequence counter `*pulNum` and returns it with the row. -/
def CuTestGenerateReport_CaseLine (pulNum : Nat) (psCase : cutest_case_t) :
    Nat × String :=
  let ulNum := pulNum + 1
  let colorResultMsg : String × String × Bool :=
    match psCase.eResult with
    | .EN_CUTEST_RESULT_PASS => ("lime", "pass", false)
    | .EN_CUTEST_RESULT_FAIL => ("red", "fail", true)
    | .EN_CUTEST_RESULT_UNDEF => ("silver", "invalid", false)
  let pszColor := colorResultMsg.1
  let pszResult := colorResultMsg.2.1
  let bPrintMsg := colorResultMsg.2.2
  let pszFile := if bPrintMsg then psCase.pszMsgFile else psCase.pszFile
  let ulLine := if bPrintMsg then psCase.ulMsgLine else psCase.ulLine
  let pszMessage := if bPrintMsg then psCase.acMessage else ""
  (ulNum,
    "<tr><td>" ++ toString ulNum ++ "</td><td>" ++ psCase.pszName ++
    "</td><td><a href=\"" ++ pszFile ++ "#L" ++ toString ulLine ++ "\">" ++
    pszFile ++ "#L" ++ toString ulLine ++
    "</a></td><td style=\"background-color: " ++ pszColor ++ "\">" ++
    pszResult ++ "</td><td>" ++ pszMessage ++ "</td></tr>")

/-- The slot loop of `CuTestGenerateReport_Group`: one row per occupied slot
(a NULL slot is skipped, the loop continues). -/
def reportCaseRows (pulNum : Nat) :
    List (Option cutest_case_t) → Nat × List String
  | [] => (pulNum, [])
  | some psCase :: rest =>
    let (n1, line) := CuTestGenerateReport_CaseLine pulNum psCase
    let (n2, lines) := reportCaseRows n1 rest
    (n2, line :: lines)
  | none :: rest => reportCaseRows pulNum rest

/-- Source `CuTestGenerateReport_Group`: group heading, table header, one row per
occupied slot, table footer. -/
def CuTestGenerateReport_Group (pulNum : Nat) (psGroup : cutest_group_t) :
    Nat × List String :=
  let (n, rows) := reportCaseRows pulNum psGroup.ppItems
  (n, ("<h3>" ++ psGroup.pszName ++ "</h3>") ::
      CuTestGenerateReport_CaseHeader :: rows ++
      [CuTestGenerateReport_CaseFooter])

/-- The slot loop of `CuTestGenerateReport_Module` (NULL slots skipped, the
loop continues). -/
def reportGroupTables (pulNum : Nat) :
    List (Option cutest_group_t) → Nat × List String
  | [] => (pulNum, [])
  | some psGroup :: rest =>
    let (n1, lines1) := CuTestGenerateReport_Group pulNum psGroup
    let (n2, lines2) := reportGroupTables n1 rest
    (n2, lines1 ++ lines2)
  | none :: rest => reportGroupTables pulNum rest

/-- Source `CuTestGenerateReport_Module`: module heading plus the contained group
tables. -/
def CuTestGenerateReport_Module (pulNum : Nat) (psModule : cutest_module_t) :
    Nat × List String :=
  let (n, lines) := reportGroupTables pulNum psModule.ppItems
  (n, ("<h2>" ++ psModule.pszName ++ "</h2>") :: lines)

/-- The root item loop of `CuTest_GenerateRunReport`: a standalone case gets
its own one-row table; groups and modules emit their tables. -/
def reportRootItems (pulNum : Nat) :
    List cutest_relem_t → Nat × List String
  | [] => (pulNum, [])
  | psItem :: rest =>
    let headLines : Nat × List String :=
      match psItem with
      | .EN_CUTEST_TYPE_CASE psCase =>
        let (n, line) := CuTestGenerateReport_CaseLine pulNum psCase
        (n, [CuTestGenerateReport_CaseHeader, line,
             CuTestGenerateReport_CaseFooter])
      | .EN_CUTEST_TYPE_GROUP psGroup =>
        CuTestGenerateReport_Group pulNum psGroup
      | .EN_CUTEST_TYPE_MODULE psModule =>
        CuTestGenerateReport_Module pulNum psModule
    let (n2, lines2) := reportRootItems headLines.1 rest
    (n2, headLines.2 ++ lines2)

/-- Source `CuTest_GenerateRunReport`: generate the HTML report file.  `bOpenOk`
tells whether `fopen(pszFile, "w")` succeeded; on failure the function
returns immediately — no output is produced (`none`), no error is surfaced
(the C return type is `void`), and the run root (taken `const`) is left
untouched.  On success the result is the list of `fprintf` chunks. -/
def CuTest_GenerateRunReport (psRoot : cutest_root_t)
    (pszTimestamp : String) (bOpenOk : Bool) : Option (List String) :=
  if bOpenOk then
    let header : String :=
      "<!DOCTYPE html>\n<html>\n    <head>\n        <title>Unit Test Report</title>\n    </head>\n    <body>\n        <h1>Unit Test Report &ndash; " ++
      psRoot.pszName ++
      "</h1><hr/>        <p><b>Framework Version:</b> CuTest " ++
      CUTEST_VERSION ++ "<br/>           <b>Test run completed at:</b> " ++
      pszTimestamp ++ "</p>\n"
    let body := (reportRootItems 0 psRoot.asItems).2
    let sStats := CuTestGetStats psRoot
    some (header :: body ++
      ["        <hr/><p>" ++ toString sStats.ulTotal ++ " runs, " ++
        toString sStats.ulPassed ++ " passes, " ++
        toString sStats.ulFailed ++ " fails\n</p>    </body>\n</html>"])
  else none

/-- The occupied slots of a group's `ppItems` array (the cases its
statistics loop counts). -/
def groupCases (psGroup : cutest_group_t) : List cutest_case_t :=
  psGroup.ppItems.filterMap id

/-- The occupied slots of a module, flattened to cases. -/
def moduleCases (psModule : cutest_module_t) : List cutest_case_t :=
  (psModule.ppItems.filterMap id).flatMap groupCases

/-- The cases counted under one root item. -/
def relemCases : cutest_relem_t → List cutest_case_t
  | .EN_CUTEST_TYPE_CASE psCase => [psCase]
  | .EN_CUTEST_TYPE_GROUP psGroup => groupCases psGroup
  | .EN_CUTEST_TYPE_MODULE psModule => moduleCases psModule

/-- All cases counted in a run. -/
def runCases (psRoot : cutest_root_t) : List cutest_case_t :=
  psRoot.asItems.flatMap relemCases

/-- Statistics of a plain case list (total / passed / failed counters). -/
def casesStats : List cutest_case_t → cutest_stats_t
  | [] => ⟨0, 0, 0⟩
  | c :: cs => statsAdd (CuTestGetStats_Case c) (casesStats cs)

/-- The longest all-occupied slot array segment before the first NULL slot
(what a `break`-at-NULL loop visits). -/
def takeWhileSome {α : Type} : List (Option α) → List α
  | some a :: rest => a :: takeWhileSome rest
  | _ => []

/-- Example fixture: a freshly declared case (result line printing on). -/
def tcBase : cutest_case_t :=
  { pszName := "TEST_Case", pszFile := "test.c", ulLine := 10
    eResult := .EN_CUTEST_RESULT_UNDEF, acMessage := ""
    pszMsgFile := "test.c", ulMsgLine := 10, bPrintResult := true }

/-- Example fixture: a case already marked passed. -/
def tcPassed : cutest_case_t :=
  { tcBase with pszName := "TEST_Passed", eResult := .EN_CUTEST_RESULT_PASS }

/-- Example fixture: a case already marked failed, with a stored message. -/
def tcFailedEx : cutest_case_t :=
  { tcBase with
    pszName := "TEST_Failed"
    eResult := .EN_CUTEST_RESULT_FAIL
    acMessage := "boom"
    pszMsgFile := "test.c"
    ulMsgLine := 31 }

/-- Example fixture: a group whose slot 0 is NULL while slot 1 is occupied
(violating the prefix-packed convention). -/
def gHole : cutest_group_t :=
  { pszName := "TestGroupHole", pszFile := "test.c", ulLine := 20
    ppItems := [none, some tcPassed] }

/-- Example fixture: a 300-character message (longer than the
`acMessage[CUTEST_MAX_LEN_MESSAGE]` buffer). -/
def longMsg : String := String.mk (List.replicate 300 'a')

/-- Example fixture: a run whose only registered item is a case that never
ran an assertion (result `Undefined`). -/
def rootUndef : cutest_root_t :=
  { pszName := "Project", asItems := [.EN_CUTEST_TYPE_CASE tcBase] }

/-! ## Helper lemmas about statistics accumulation -/

theorem statsAdd_zero_left (s : cutest_stats_t) : statsAdd ⟨0, 0, 0⟩ s = s := by
  simp [statsAdd]

theorem statsAdd_zero_right (s : cutest_stats_t) : statsAdd s ⟨0, 0, 0⟩ = s := by
  simp [statsAdd]

theorem statsAdd_assoc (r s t : cutest_stats_t) :
    statsAdd (statsAdd r s) t = statsAdd r (statsAdd s t) := by
  simp [statsAdd, Nat.add_assoc]

theorem casesStats_append (xs ys : List cutest_case_t) :
    casesStats (xs ++ ys) = statsAdd (casesStats xs) (casesStats ys) := by
  induction xs with
  | nil => simp [casesStats, statsAdd_zero_left]
  | cons c cs ih => simp [casesStats, ih, statsAdd_assoc]

theorem groupStats_loop (items : List (Option cutest_case_t))
    (init : cutest_stats_t) :
    items.foldl
      (fun sGroup item =>
        match item with
        | some psCase => statsAdd sGroup (CuTestGetStats_Case psCase)
        | none => sGroup)
      init
    = statsAdd init (casesStats (items.filterMap id)) := by
  induction items generalizing init with
  | nil => simp [casesStats, statsAdd_zero_right]
  | cons x rest ih =>
    cases x with
    | none => simp [List.filterMap_cons, ih]
    | some c => simp [List.filterMap_cons, ih, casesStats, statsAdd_assoc]

theorem CuTestGetStats_Group_eq (psGroup : cutest_group_t) :
    CuTestGetStats_Group psGroup = casesStats (groupCases psGroup) := by
  rw [CuTestGetStats_Group, groupCases, groupStats_loop, statsAdd_zero_left]

theorem moduleStats_loop (items : List (Option cutest_group_t))
    (init : cutest_stats_t) :
    items.foldl
      (fun sModule item =>
        match item with
        | some psGroup => statsAdd sModule (CuTestGetStats_Group psGroup)
        | none => sModule)
      init
    = statsAdd init (casesStats ((items.filterMap id).flatMap groupCases)) := by
  induction items generalizing init with
  | nil => simp [casesStats, statsAdd_zero_right]
  | cons x rest ih =>
    cases x with
    | none => simp [List.filterMap_cons, ih]
    | some g =>
      rw [List.foldl_cons, ih]
      simp only [List.filterMap_cons, id_eq, List.flatMap_cons,
        casesStats_append, CuTestGetStats_Group_eq, statsAdd_assoc]

theorem CuTestGetStats_Module_eq (psModule : cutest_module_t) :
    CuTestGetStats_Module psModule = casesStats (moduleCases psModule) := by
  rw [CuTestGetStats_Module, moduleCases, moduleStats_loop, statsAdd_zero_left]

theorem relemStats_eq (psItem : cutest_relem_t) :
    (match psItem with
      | .EN_CUTEST_TYPE_CASE psCase => CuTestGetStats_Case psCase
      | .EN_CUTEST_TYPE_GROUP psGroup => CuTestGetStats_Group psGroup
      | .EN_CUTEST_TYPE_MODULE psModule => CuTestGetStats_Module psModule)
    = casesStats (relemCases psItem) := by
  cases psItem with
  | EN_CUTEST_TYPE_CASE psCase =>
    simp [relemCases, casesStats, statsAdd_zero_right]
  | EN_CUTEST_TYPE_GROUP psGroup => simp [relemCases, CuTestGetStats_Group_eq]
  | EN_CUTEST_TYPE_MODULE psModule =>
    simp [relemCases, CuTestGetStats_Module_eq]

theorem runStats_loop (items : List cutest_relem_t) (init : cutest_stats_t) :
    items.foldl
      (fun sRun psItem =>
        let sItem :=
          match psItem with
          | .EN_CUTEST_TYPE_CASE psCase => CuTestGetStats_Case psCase
          | .EN_CUTEST_TYPE_GROUP psGroup => CuTestGetStats_Group psGroup
          | .EN_CUTEST_TYPE_MODULE psModule => CuTestGetStats_Module psModule
        statsAdd sRun sItem)
      init
    = statsAdd init (casesStats (items.flatMap relemCases)) := by
  induction items generalizing init with
  | nil => simp [casesStats, statsAdd_zero_right]
  | cons x rest ih =>
    rw [List.foldl_cons, ih]
    simp only [relemStats_eq, List.flatMap_cons, casesStats_append,
      statsAdd_assoc]

theorem CuTestGetStats_eq_runCases (psRoot : cutest_root_t) :
    CuTestGetStats psRoot = casesStats (runCases psRoot) := by
  rw [CuTestGetStats, runCases, runStats_loop, statsAdd_zero_left]

theorem casesStats_bound (cs : List cutest_case_t) :
    (casesStats cs).ulPassed + (casesStats cs).ulFailed ≤ (casesStats cs).ulTotal
    ∧ ((casesStats cs).ulPassed + (casesStats cs).ulFailed = (casesStats cs).ulTotal
        ↔ ∀ c ∈ cs, c.eResult ≠ .EN_CUTEST_RESULT_UNDEF) := by
  induction cs with
  | nil => simp [casesStats]
  | cons c rest ih =>
    obtain ⟨ih1, ih2⟩ := ih
    cases h : c.eResult with
    | EN_CUTEST_RESULT_UNDEF =>
      refine ⟨?_, ?_⟩
      · simp [casesStats, statsAdd, CuTestGetStats_Case, h]
        omega
      · simp only [casesStats, statsAdd, CuTestGetStats_Case, h]
        constructor
        · intro heq
          exfalso
          simp at heq
          omega
        · intro hall
          exact absurd h (hall c (List.mem_cons_self c rest))
    | EN_CUTEST_RESULT_PASS =>
      refine ⟨?_, ?_⟩
      · simp [casesStats, statsAdd, CuTestGetStats_Case, h]
        omega
      · simp only [casesStats, statsAdd, CuTestGetStats_Case, h]
        simp only [List.mem_cons, forall_eq_or_imp, h]
        constructor
        · intro heq
          refine ⟨by simp, ih2.mp (by simp at heq; omega)⟩
        · intro hall
          have := ih2.mpr hall.2
          simp
          omega
    | EN_CUTEST_RESULT_FAIL =>
      refine ⟨?_, ?_⟩
      · simp [casesStats, statsAdd, CuTestGetStats_Case, h]
        omega
      · simp only [casesStats, statsAdd, CuTestGetStats_Case, h]
        simp only [List.mem_cons, forall_eq_or_imp, h]
        constructor
        · intro heq
          refine ⟨by simp, ih2.mp (by simp at heq; omega)⟩
        · intro hall
          have := ih2.mpr hall.2
          simp
          omega

/-! ## Helper lemmas about the runner, reporter and summary tape loops -/

theorem runGroup_fst
    (items : List (Option (List cutest_stmt × cutest_case_t))) :
    (CuTest_RunTestGroup items).1 =
      items.map (Option.map (fun p => (CuTest_RunTestCase p.1 p.2).1)) := by
  induction items with
  | nil => rfl
  | cons x rest ih =>
    cases x with
    | none => simp [CuTest_RunTestGroup, ih]
    | some p =>
      cases p with
      | mk pfvTestFn psCase => simp [CuTest_RunTestGroup, ih]

theorem reportCaseRows_length (items : List (Option cutest_case_t))
    (pulNum : Nat) :
    (reportCaseRows pulNum items).2.length = (items.filterMap id).length := by
  induction items generalizing pulNum with
  | nil => rfl
  | cons x rest ih =>
    cases x with
    | none => simp [reportCaseRows, ih, List.filterMap_cons]
    | some c => simp [reportCaseRows, ih, List.filterMap_cons]

theorem report_Group_length (psGroup : cutest_group_t) (pulNum : Nat) :
    ((CuTestGenerateReport_Group pulNum psGroup).2).length =
      3 + (groupCases psGroup).length := by
  simp [CuTestGenerateReport_Group, reportCaseRows_length, groupCases]
  omega

theorem summaryTapeCases_eq (items : List (Option cutest_case_t)) :
    summaryTapeCases items =
      (takeWhileSome items).map CuTestPrintSummaryTape_Case := by
  induction items with
  | nil => rfl
  | cons x rest ih =>
    cases x with
    | none => rfl
    | some c => simp [summaryTapeCases, takeWhileSome, ih]

theorem memEqualsLoop_self (psTc : cutest_case_t) (pszFile : String)
    (ulLine : Nat) :
    ∀ (e : List Nat) (i : Nat),
      memEqualsLoop psTc pszFile ulLine e e i = (CuTestAssertPassed psTc, true) := by
  intro e
  induction e with
  | nil => intro i; rfl
  | cons x es ih => intro i; simp [memEqualsLoop, ih]

theorem memEqualsLoop_mismatch (psTc : cutest_case_t) (pszFile : String)
    (ulLine : Nat) :
    ∀ (k : Nat) (e a : List Nat) (i : Nat), k < e.length → k < a.length →
      e.take k = a.take k → e.getD k 0 ≠ a.getD k 0 →
      memEqualsLoop psTc pszFile ulLine e a i =
        (CuTestAssertFailed
          { psTc with
            acMessage := snprintfMessage
              (memMismatchMsg (i + k) (e.getD k 0) (a.getD k 0))
            pszMsgFile := pszFile
            ulMsgLine := ulLine }, false) := by
  intro k
  induction k with
  | zero =>
    intro e a i he ha htake hne
    cases e with
    | nil => simp at he
    | cons x es =>
      cases a with
      | nil => simp at ha
      | cons y as =>
        simp only [List.getD_cons_zero] at hne
        simp [memEqualsLoop, hne]
  | succ k ih =>
    intro e a i he ha htake hne
    cases e with
    | nil => simp at he
    | cons x es =>
      cases a with
      | nil => simp at ha
      | cons y as =>
        simp only [List.take_succ_cons, List.cons.injEq] at htake
        obtain ⟨hxy, htk⟩ := htake
        simp only [List.getD_cons_succ] at hne
        have hr := ih es as (i + 1) (by simpa using he) (by simpa using ha)
          htk hne
        rw [show i + 1 + k = i + (k + 1) from by omega] at hr
        subst hxy
        simp [memEqualsLoop, hr]

/-! ## Claim theorems -/

/-- C1 counterexample: the prefix-packed scan claim fails on the code.  In
`gHole` slot 0 is NULL and slot 1 holds a passed case; the claim predicts
that the slot-1 case is neither counted (total 0), nor run, nor reported
(no table row).  In fact: the Statistics Aggregator counts it (total 1),
the Group Runner runs it (the case, seeded with a failing assertion, comes
back `Failed`), and the HTML report emits a row for it (heading + table
header + one row + footer = 4 chunks). -/
theorem cutest_c1_counterexample :
    (CuTestGetStats_Group gHole).ulTotal = 1
    ∧ (CuTest_RunTestGroup
        [none, some ([.evalAssert "test.c" 12 false none], tcPassed)]).1 =
      [none, some { tcPassed with
          eResult := .EN_CUTEST_RESULT_FAIL
          acMessage := "assert failed."
          pszMsgFile := "test.c"
          ulMsgLine := 12 }]
    ∧ (CuTestGenerateReport_Group 0 gHole).2.length = 4 := by
  refine ⟨by decide, by decide, by decide⟩

/-- C1 amended: only the summary-tape printers stop at the first empty
slot; the Statistics Aggregator (group and module), the Group Runner and
the HTML report generator skip empty slots and keep scanning, so occupied
slots after an empty slot are counted, run and reported.  `groupCases` /
`moduleCases` collect all occupied slots regardless of position, and
`takeWhileSome` is the segment before the first empty slot. -/
theorem cutest_c1_amended :
    (∀ psGroup : cutest_group_t,
      CuTestGetStats_Group psGroup = casesStats (groupCases psGroup))
    ∧ (∀ psModule : cutest_module_t,
      CuTestGetStats_Module psModule = casesStats (moduleCases psModule))
    ∧ (∀ items : List (Option (List cutest_stmt × cutest_case_t)),
      (CuTest_RunTestGroup items).1 =
        items.map (Option.map (fun p => (CuTest_RunTestCase p.1 p.2).1)))
    ∧ (∀ (psGroup : cutest_group_t) (pulNum : Nat),
      ((CuTestGenerateReport_Group pulNum psGroup).2).length =
        3 + (groupCases psGroup).length)
    ∧ (∀ psGroup : cutest_group_t,
      CuTestPrintSummaryTape_Group psGroup =
        (takeWhileSome psGroup.ppItems).map CuTestPrintSummaryTape_Case) :=
  ⟨CuTestGetStats_Group_eq, CuTestGetStats_Module_eq, runGroup_fst,
    fun psGroup pulNum => report_Group_length psGroup pulNum,
    fun psGroup => summaryTapeCases_eq psGroup.ppItems⟩

/-- C2: the overall run result is `Passed` iff `passed == total`, and any
counted case with result `Undefined` forces the overall result `Failed`. -/
theorem cutest_c2 (psRoot : cutest_root_t) :
    (CuTest_GetRunResult psRoot = .EN_CUTEST_RESULT_PASS ↔
      (CuTestGetStats psRoot).ulPassed = (CuTestGetStats psRoot).ulTotal)
    ∧ ∀ c ∈ runCases psRoot, c.eResult = .EN_CUTEST_RESULT_UNDEF →
        CuTest_GetRunResult psRoot = .EN_CUTEST_RESULT_FAIL := by
  have hiff : CuTest_GetRunResult psRoot = .EN_CUTEST_RESULT_PASS ↔
      (CuTestGetStats psRoot).ulPassed = (CuTestGetStats psRoot).ulTotal := by
    unfold CuTest_GetRunResult
    by_cases h : (CuTestGetStats psRoot).ulPassed = (CuTestGetStats psRoot).ulTotal
    · simp [h]
    · simp [h]
  refine ⟨hiff, ?_⟩
  intro c hc hundef
  have hb := casesStats_bound (runCases psRoot)
  rw [← CuTestGetStats_eq_runCases] at hb
  by_cases h : (CuTestGetStats psRoot).ulPassed = (CuTestGetStats psRoot).ulTotal
  · exfalso
    have hle := hb.1
    have hall := hb.2.mp (by omega)
    exact hall c hc hundef
  · unfold CuTest_GetRunResult
    simp [h]

/-- C2 witness: a run holding a single `Undefined` case has `failed == 0`
yet overall result `Failed`. -/
theorem cutest_c2_witness :
    CuTest_GetRunResult rootUndef = .EN_CUTEST_RESULT_FAIL
    ∧ (CuTestGetStats rootUndef).ulFailed = 0 :=
  ⟨(cutest_c2 rootUndef).2 tcBase (by decide) rfl, by decide⟩

/-- C7: the Case Runner first resets the result to `Undefined` and clears
the message buffer (so the run outcome is independent of any previous run),
and a test function with no assertions leaves the result `Undefined` and
the message empty. -/
theorem cutest_c7 (psTc : cutest_case_t) (pfvTestFn : List cutest_stmt) :
    CuTest_RunTestCase pfvTestFn psTc =
      CuTest_RunTestCase pfvTestFn
        { psTc with eResult := .EN_CUTEST_RESULT_UNDEF, acMessage := "" }
    ∧ (CuTest_RunTestCase [] psTc).1.eResult = .EN_CUTEST_RESULT_UNDEF
    ∧ (CuTest_RunTestCase [] psTc).1.acMessage = "" :=
  ⟨rfl, rfl, rfl⟩

/-- C8: if the HTML report output file cannot be opened for writing,
`CuTest_GenerateRunReport` produces no output at all (`none`, no partial
file) and surfaces no error (the model is a pure function of the
const-qualified run root, whose state is therefore unchanged); with a
usable file it does produce a document. -/
theorem cutest_c8 (psRoot : cutest_root_t) (pszTimestamp : String) :
    CuTest_GenerateRunReport psRoot pszTimestamp false = none
    ∧ (CuTest_GenerateRunReport psRoot pszTimestamp true).isSome = true :=
  ⟨rfl, rfl⟩

/-- C9: for cases, groups, modules and runs the aggregated statistics
satisfy `passed + failed ≤ total`, with equality exactly when no counted
case has result `Undefined`. -/
theorem cutest_c9 :
    (∀ psCase : cutest_case_t,
      (CuTestGetStats_Case psCase).ulPassed +
          (CuTestGetStats_Case psCase).ulFailed ≤
        (CuTestGetStats_Case psCase).ulTotal
      ∧ ((CuTestGetStats_Case psCase).ulPassed +
            (CuTestGetStats_Case psCase).ulFailed =
          (CuTestGetStats_Case psCase).ulTotal
          ↔ psCase.eResult ≠ .EN_CUTEST_RESULT_UNDEF))
    ∧ (∀ psGroup : cutest_group_t,
      (CuTestGetStats_Group psGroup).ulPassed +
          (CuTestGetStats_Group psGroup).ulFailed ≤
        (CuTestGetStats_Group psGroup).ulTotal
      ∧ ((CuTestGetStats_Group psGroup).ulPassed +
            (CuTestGetStats_Group psGroup).ulFailed =
          (CuTestGetStats_Group psGroup).ulTotal
          ↔ ∀ c ∈ groupCases psGroup, c.eResult ≠ .EN_CUTEST_RESULT_UNDEF))
    ∧ (∀ psModule : cutest_module_t,
      (CuTestGetStats_Module psModule).ulPassed +
          (CuTestGetStats_Module psModule).ulFailed ≤
        (CuTestGetStats_Module psModule).ulTotal
      ∧ ((CuTestGetStats_Module psModule).ulPassed +
            (CuTestGetStats_Module psModule).ulFailed =
          (CuTestGetStats_Module psModule).ulTotal
          ↔ ∀ c ∈ moduleCases psModule, c.eResult ≠ .EN_CUTEST_RESULT_UNDEF))
    ∧ (∀ psRoot : cutest_root_t,
      (CuTestGetStats psRoot).ulPassed + (CuTestGetStats psRoot).ulFailed ≤
        (CuTestGetStats psRoot).ulTotal
      ∧ ((CuTestGetStats psRoot).ulPassed + (CuTestGetStats psRoot).ulFailed =
          (CuTestGetStats psRoot).ulTotal
          ↔ ∀ c ∈ runCases psRoot, c.eResult ≠ .EN_CUTEST_RESULT_UNDEF)) := by
  refine ⟨?_, ?_, ?_, ?_⟩
  · intro psCase
    cases h : psCase.eResult <;> simp [CuTestGetStats_Case, h]
  · intro psGroup
    have hb := casesStats_bound (groupCases psGroup)
    rwa [← CuTestGetStats_Group_eq] at hb
  · intro psModule
    have hb := casesStats_bound (moduleCases psModule)
    rwa [← CuTestGetStats_Module_eq] at hb
  · intro psRoot
    have hb := casesStats_bound (runCases psRoot)
    rwa [← CuTestGetStats_eq_runCases] at hb

/-- C9 witness: concrete instance at `gHole` (one passed case counted),
with the equality case discharged by deciding that no counted case is
`Undefined`. -/
theorem cutest_c9_witness :
    (CuTestGetStats_Group gHole).ulPassed +
        (CuTestGetStats_Group gHole).ulFailed =
      (CuTestGetStats_Group gHole).ulTotal :=
  (cutest_c9.2.1 gHole).2.mpr (by decide)

/-- C10: a run with zero registered root items has statistics
`{0, 0, 0}`, overall result `Passed`, and the success exit code. -/
theorem cutest_c10 (pszName : String) :
    CuTestGetStats { pszName := pszName, asItems := [] } = ⟨0, 0, 0⟩
    ∧ CuTest_GetRunResult { pszName := pszName, asItems := [] } =
        .EN_CUTEST_RESULT_PASS
    ∧ GET_RUN_RESULT { pszName := pszName, asItems := [] } = EXIT_SUCCESS :=
  ⟨rfl, rfl, rfl⟩

set_option maxRecDepth 8192 in
/-- C3 counterexample: the "supplied message verbatim" part fails for a
message longer than the `acMessage[CUTEST_MAX_LEN_MESSAGE]` buffer:
`snprintf` truncates the 300-character `longMsg` to 255 characters, so the
stored failure message is not the supplied message. -/
theorem cutest_c3_counterexample :
    longMsg ≠ ""
    ∧ (CuTest_EvalAssert tcBase "test.c" 11 false (some longMsg)).1.acMessage
        ≠ longMsg
    ∧ (CuTest_EvalAssert tcBase "test.c" 11 false (some longMsg)).1.acMessage
        = String.mk (List.replicate 255 'a') := by
  refine ⟨by decide, by decide, by decide⟩

/-- C3 amended: a true condition marks the case passed and returns
normally (the rest of the test function still runs); a false condition
marks it failed, records the call-site location, stores the supplied
message verbatim when it is non-empty and fits the bounded message buffer
(at most `CUTEST_MAX_LEN_MESSAGE - 1` characters; longer messages are
truncated to that bound) or the default text `"assert failed."` when absent
or empty, and leaves via the one-shot non-local exit so that no statement
after the failing assertion executes (the result is independent of
`rest`). -/
theorem cutest_c3_amended (psTc : cutest_case_t) (f : String) (l : Nat)
    (msg : Option String) (rest : List cutest_stmt) :
    (runTestFn (cutest_stmt.evalAssert f l true msg :: rest) psTc =
      runTestFn rest (CuTestAssertPassed psTc))
    ∧ (runTestFn (cutest_stmt.evalAssert f l false msg :: rest) psTc =
        (CuTest_EvalAssert psTc f l false msg).1)
    ∧ (CuTest_EvalAssert psTc f l false msg).1.eResult =
        .EN_CUTEST_RESULT_FAIL
    ∧ (CuTest_EvalAssert psTc f l false msg).1.pszMsgFile = f
    ∧ (CuTest_EvalAssert psTc f l false msg).1.ulMsgLine = l
    ∧ (∀ m : String, msg = some m → m ≠ "" →
        m.length ≤ CUTEST_MAX_LEN_MESSAGE - 1 →
        (CuTest_EvalAssert psTc f l false msg).1.acMessage = m)
    ∧ ((msg = none ∨ msg = some "") →
        (CuTest_EvalAssert psTc f l false msg).1.acMessage =
          "assert failed.") := by
  refine ⟨rfl, rfl, ?_, ?_, ?_, ?_, ?_⟩
  · cases msg with
    | none => rfl
    | some m => simp [CuTest_EvalAssert, CuTestAssertFailed]
  · cases msg with
    | none => rfl
    | some m => simp [CuTest_EvalAssert, CuTestAssertFailed]
  · cases msg with
    | none => rfl
    | some m => simp [CuTest_EvalAssert, CuTestAssertFailed]
  · intro m hm hne hlen
    subst hm
    simp only [CuTest_EvalAssert, Bool.false_eq_true, if_false,
      CuTestAssertFailed, hne, ite_false]
    have hlen' : m.data.length ≤ CUTEST_MAX_LEN_MESSAGE - 1 := hlen
    show String.mk (List.take (CUTEST_MAX_LEN_MESSAGE - 1) m.data) = m
    rw [List.take_of_length_le hlen']
  · intro hcase
    rcases hcase with h | h <;> subst h <;> rfl

/-- C3 witness: a short non-empty message is stored verbatim. -/
theorem cutest_c3_witness :
    (CuTest_EvalAssert tcBase "test.c" 7 false (some "boom")).1.acMessage =
      "boom" :=
  (cutest_c3_amended tcBase "test.c" 7 (some "boom") []).2.2.2.2.2.1 "boom"
    rfl (by decide) (by decide)

/-- C4: with result printing enabled the Case Runner emits exactly one
`printf` line `file:line:0: info: name passed.` on `Passed`, exactly two
lines (`file:line:0: error: name failed.` then
`msgFile:msgLine:0: error: message`) on `Failed` (each of these two format
strings ends in a newline followed by one space, as in the source), and one
`file:line:0: warning: name not evaluated.` line on `Undefined`; the
runner's output is exactly `printCaseResult` of the final case state. -/
theorem cutest_c4 (psTc : cutest_case_t) (h : psTc.bPrintResult = true) :
    (psTc.eResult = .EN_CUTEST_RESULT_PASS →
      printCaseResult psTc =
        [psTc.pszFile ++ ":" ++ toString psTc.ulLine ++ ":0: info: " ++
          psTc.pszName ++ " passed.\n"])
    ∧ (psTc.eResult = .EN_CUTEST_RESULT_FAIL →
      printCaseResult psTc =
        [psTc.pszFile ++ ":" ++ toString psTc.ulLine ++ ":0: error: " ++
          psTc.pszName ++ " failed.\n ",
         psTc.pszMsgFile ++ ":" ++ toString psTc.ulMsgLine ++
          ":0: error: " ++ psTc.acMessage ++ "\n "])
    ∧ (psTc.eResult = .EN_CUTEST_RESULT_UNDEF →
      printCaseResult psTc =
        [psTc.pszFile ++ ":" ++ toString psTc.ulLine ++ ":0: warning: " ++
          psTc.pszName ++ " not evaluated.\n"])
    ∧ ∀ pfvTestFn : List cutest_stmt,
        (CuTest_RunTestCase pfvTestFn psTc).2 =
          printCaseResult (CuTest_RunTestCase pfvTestFn psTc).1 := by
  refine ⟨?_, ?_, ?_, fun pfvTestFn => rfl⟩ <;> intro hres <;>
    simp [printCaseResult, h, hres]

/-- C4 witness: the two failure lines of a concrete failed case. -/
theorem cutest_c4_witness :
    printCaseResult tcFailedEx =
      ["test.c:10:0: error: TEST_Failed failed.\n ",
       "test.c:31:0: error: boom\n "] :=
  (cutest_c4 tcFailedEx rfl).2.1 rfl

/-- C5: the float-equals assertion marks the case passed iff the deviation
`|a - e|` is at most the tolerance (the boundary `|a - e| = tol` passes,
and `tol = 0` requires exact equality).  The model uses exact rational
arithmetic; a NaN tolerance is rejected by the C `assert(!isnan(...))`
precondition and has no counterpart here. -/
theorem cutest_c5 (psTc : cutest_case_t) (f : String) (l : Nat)
    (e a tol : ℚ) :
    ((CuTest_EvalAssertFltEquals psTc f l e a tol).1.eResult =
        .EN_CUTEST_RESULT_PASS ↔ |a - e| ≤ tol)
    ∧ (|a - e| = tol →
        (CuTest_EvalAssertFltEquals psTc f l e a tol).1.eResult =
          .EN_CUTEST_RESULT_PASS)
    ∧ (tol = 0 →
        ((CuTest_EvalAssertFltEquals psTc f l e a tol).1.eResult =
            .EN_CUTEST_RESULT_PASS ↔ a = e)) := by
  have hmain : (CuTest_EvalAssertFltEquals psTc f l e a tol).1.eResult =
      .EN_CUTEST_RESULT_PASS ↔ |a - e| ≤ tol := by
    unfold CuTest_EvalAssertFltEquals
    by_cases hd : |a - e| > tol
    · simp only [hd, if_true, CuTestAssertFailed]
      simp only [show (cutest_result_t.EN_CUTEST_RESULT_FAIL =
          cutest_result_t.EN_CUTEST_RESULT_PASS) = False from by simp]
      simp [not_le.mpr hd]
    · simp only [hd, if_false, CuTestAssertPassed]
      simp [le_of_not_lt hd]
  refine ⟨hmain, ?_, ?_⟩
  · intro heq
    exact hmain.mpr (le_of_eq heq)
  · intro h0
    subst h0
    rw [hmain, abs_nonpos_iff, sub_eq_zero]

/-- C5 witness: the boundary case `|a - e| = tol` (here `|2 - 1| = 1`)
passes. -/
theorem cutest_c5_witness :
    (CuTest_EvalAssertFltEquals tcBase "test.c" 40 1 2 1).1.eResult =
      .EN_CUTEST_RESULT_PASS :=
  (cutest_c5 tcBase "test.c" 40 1 2 1).2.1 (by norm_num)

/-- C6: for byte buffers of equal length, the byte-buffer-equals assertion
passes when the buffers are identical; if `k` is the first differing
offset (the prefixes up to `k` agree and the bytes at `k` differ), it
fails with the message citing offset `k`, the expected byte and the actual
byte — the conclusion depends only on the first `k + 1` bytes, so the
outcome is independent of the buffer contents at offsets greater than
`k`. -/
theorem cutest_c6 (psTc : cutest_case_t) (f : String) (l : Nat)
    (e a : List Nat) (hlen : a.length = e.length) :
    (e = a →
      CuTest_EvalAssertMemEquals psTc f l e a =
        (CuTestAssertPassed psTc, true))
    ∧ ∀ k, k < e.length → e.take k = a.take k → e.getD k 0 ≠ a.getD k 0 →
        CuTest_EvalAssertMemEquals psTc f l e a =
          (CuTestAssertFailed
            { psTc with
              acMessage := snprintfMessage
                (memMismatchMsg k (e.getD k 0) (a.getD k 0))
              pszMsgFile := f
              ulMsgLine := l }, false) := by
  constructor
  · intro he
    subst he
    exact memEqualsLoop_self psTc f l e 0
  · intro k hk htake hne
    have hka : k < a.length := by rw [hlen]; exact hk
    have hr := memEqualsLoop_mismatch psTc f l k e a 0 hk hka htake hne
    simpa [CuTest_EvalAssertMemEquals] using hr

/-- C6 witness: buffers `[1, 2, 3]` and `[1, 9, 3]` first differ at offset
1; the assertion fails citing offset 1, expected byte 0x02 and actual byte
0x09. -/
theorem cutest_c6_witness :
    CuTest_EvalAssertMemEquals tcBase "test.c" 50 [1, 2, 3] [1, 9, 3] =
      (CuTestAssertFailed
        { tcBase with
          acMessage :=
            "mismatch at offset <1>: expected <0x02>, but was <0x09>"
          pszMsgFile := "test.c"
          ulMsgLine := 50 }, false) :=
  (cutest_c6 tcBase "test.c" 50 [1, 2, 3] [1, 9, 3] rfl).2 1 (by decide)
    (by decide) (by decide)
